import Mathlib

/-!
Verification of the `vogels2005` repository (files `Sinha2016.py` and
`vogels2005.py`): a shallow embedding of the orchestration code that the
scripts run on top of the NEST simulation engine, together with theorems
settling the specification claims.

Conventions of the embedding:
* Python floats carrying exact decimal parameters are modelled as `ℚ`.
* `random.sample` / `random.shuffle` are modelled by `sample`, which is
  parameterised by the stream of random draws (`rands`); for any stream it
  picks distinct elements, exactly as the Python functions guarantee.
* Python `int()` on a float is truncation towards zero (`pyInt`);
  Python list indexing (with its negative-index wrap-around) is `pyIndex`.
* The NEST engine itself is external: it is modelled abstractly, either as
  a list of connections with weights (`SimState`) or, for the frame claim,
  as a small state machine over engine operations (`Engine` / `NestOp`).
-/

/-- Python `int()` applied to an exact rational: truncation towards zero. -/
def pyInt (q : ℚ) : ℤ := if q < 0 then ⌈q⌉ else ⌊q⌋

/-- Python float `%`: `a % b = a - b * floor (a / b)` (for the positive
arguments used by the scripts). -/
def fmod (a b : ℚ) : ℚ := a - b * ⌊a / b⌋

/-- Python list indexing `l[i]`: negative indices count from the end;
out-of-range access raises, modelled by `none`. -/
def pyIndex {α : Type} (l : List α) (i : ℤ) : Option α :=
  if i < 0 then
    if 0 ≤ (l.length : ℤ) + i then l[((l.length : ℤ) + i).toNat]? else none
  else
    l[i.toNat]?

/-- Model of Python `random.sample(pop, k)` driven by an arbitrary stream of
random draws: repeatedly pick the element at position `r % |pop|` and remove
it.  Whatever the stream, the result consists of `k` distinct elements of
`pop` (when `k ≤ |pop|`), which is exactly the guarantee `random.sample`
provides. -/
def sample {α : Type} [DecidableEq α] : List α → ℕ → List ℕ → List α
  | _, 0, _ => []
  | pop, k + 1, rands =>
    if h : pop ≠ [] then
      let x := pop.get ⟨rands.headD 0 % pop.length, Nat.mod_lt _ (List.length_pos.mpr h)⟩
      x :: sample (pop.erase x) k rands.tail
    else []

/-- Model of Python `random.shuffle`: a full-length distinct re-draw of the
list, i.e. a permutation selected by the random stream. -/
def shuffle {α : Type} [DecidableEq α] (xs : List α) (rands : List ℕ) : List α :=
  sample xs xs.length rands

/-- `Sinha2016.__setup_neurons`: the `populations` dictionary. -/
def populations : String → ℕ
  | "E" => 8000
  | "I" => 2000
  | "P" => 800
  | "R" => 400
  | "D" => 200
  | "STIM" => 1000
  | "Poisson" => 1
  | _ => 0

/-! ### Claim C2: module-level code of `vogels2005.py`

`vogels2005.py` runs a sequence of module-level statements.  Python resolves
each name when the statement executes; referencing a name that is not bound
raises `NameError`.  Each statement is modelled by the names it references
and the names it binds, in source order. -/

/-- A module-level Python statement: the global names it reads and the global
names it binds. -/
structure Stmt where
  reads : List String
  binds : List String
  deriving DecidableEq

/-- Execute module-level statements: each statement's referenced names must
already be bound, otherwise execution stops with a `NameError` carrying the
offending name.  Returns the final environment on success. -/
def runStmts : List Stmt → List String → Except String (List String)
  | [], env => Except.ok env
  | s :: rest, env =>
    match s.reads.find? (fun n => !(env.contains n)) with
    | some n => Except.error n
    | none => runStmts rest (env ++ s.binds)

/-- The module-level statements of `vogels2005.py`, lines 24-55, in order:
the imports, then `self.neuronDict = {...}`, the `nest.CopyModel` /
`nest.SetDefaults` calls (which read `self.neuronDict`), and the
`self.neuronsE = nest.Create(...)` style assignments (attribute assignment
reads the name `self`; the last two also read `self.populations` and
`self.poissonExtDict`). -/
def vogels2005_stmts : List Stmt :=
  [ ⟨[], ["print_function"]⟩,        -- from __future__ import print_function
    ⟨[], ["sys"]⟩,                   -- import sys
    ⟨["sys"], []⟩,                   -- sys.argv.append('--quiet')
    ⟨[], ["nest"]⟩,                  -- import nest
    ⟨[], ["numpy"]⟩,                 -- import numpy
    ⟨[], ["math"]⟩,                  -- import math
    ⟨[], ["random"]⟩,                -- import random
    ⟨["self"], []⟩,                  -- self.neuronDict = \x7b...\x7d
    ⟨["nest"], []⟩,                  -- nest.CopyModel("iaf_cond_exp", "tif_neuronE")
    ⟨["nest", "self"], []⟩,          -- nest.SetDefaults("tif_neuronE", self.neuronDict)
    ⟨["nest"], []⟩,                  -- nest.CopyModel("iaf_cond_exp", "tif_neuronI")
    ⟨["nest", "self"], []⟩,          -- nest.SetDefaults("tif_neuronI", self.neuronDict)
    ⟨["nest", "self"], []⟩,          -- self.neuronsE = nest.Create('tif_neuronE', 8000)
    ⟨["nest", "self"], []⟩,          -- self.neuronsI = nest.Create('tif_neuronI', 2000)
    ⟨["nest", "self"], []⟩,          -- self.poissonExtE = nest.Create(...)
    ⟨["nest", "self"], []⟩ ]         -- self.poissonExtI = nest.Create(...)

/-! ### Claim C3: neuron setup (`__setup_neurons` / `__create_neurons`) -/

/-- A structural-plasticity growth curve dictionary. -/
structure GrowthCurve where
  growth_curve : String
  growth_rate : ℚ
  continuous : Bool
  eta : ℚ
  eps : ℚ
  deriving DecidableEq

/-- `Sinha2016.growth_curve_axonal`. -/
def growth_curve_axonal : GrowthCurve :=
  { growth_curve := "gaussian", growth_rate := 1/10000, continuous := false,
    eta := 4/10, eps := 7/10 }

/-- `Sinha2016.growth_curve_dendritic` (its `eps` is taken from the axonal
curve). -/
def growth_curve_dendritic : GrowthCurve :=
  { growth_curve := "gaussian", growth_rate := 1/10000, continuous := false,
    eta := 1/10, eps := growth_curve_axonal.eps }

/-- `Sinha2016.synaptic_elements_E`. -/
def synaptic_elements_E : List (String × GrowthCurve) :=
  [("Den_ex", growth_curve_dendritic), ("Den_in", growth_curve_dendritic),
   ("Axon_ex", growth_curve_axonal)]

/-- `Sinha2016.synaptic_elements_I`. -/
def synaptic_elements_I : List (String × GrowthCurve) :=
  [("Den_ex", growth_curve_dendritic), ("Den_in", growth_curve_dendritic),
   ("Axon_in", growth_curve_axonal)]

/-- `Sinha2016.neuronDict`: the common neuron parameter dictionary. -/
def neuronDict : List (String × ℚ) :=
  [("V_m", -60), ("t_ref", 5), ("V_reset", -60), ("V_th", -50), ("C_m", 200),
   ("E_L", -60), ("g_L", 10), ("E_ex", 0), ("E_in", -80),
   ("tau_syn_ex", 5), ("tau_syn_in", 10)]

/-- `Sinha2016.poissonExtDict`. -/
def poissonExtDict : List (String × ℚ) :=
  [("rate", 10), ("origin", 0), ("start", 0)]

/-- A `nest.CopyModel` + `nest.SetDefaults` pair performed in
`__setup_neurons`. -/
structure ModelDef where
  base : String
  name : String
  defaults : List (String × ℚ)
  deriving DecidableEq

/-- The two neuron models registered by `__setup_neurons`: both copied from
`iaf_cond_exp` and given `neuronDict` as defaults. -/
def tif_models : List ModelDef :=
  [ { base := "iaf_cond_exp", name := "tif_neuronE", defaults := neuronDict },
    { base := "iaf_cond_exp", name := "tif_neuronI", defaults := neuronDict } ]

/-- One `nest.Create` call: model name, number of nodes, the
`synaptic_elements` dictionary attached (empty when none), and the parameter
dictionary passed (empty when none). -/
structure CreateCall where
  model : String
  n : ℕ
  elements : List (String × GrowthCurve)
  params : List (String × ℚ)
  deriving DecidableEq

/-- `Sinha2016.__create_neurons`: the four `nest.Create` calls in source
order. -/
def create_neurons_calls : List CreateCall :=
  [ { model := "tif_neuronE", n := populations "E",
      elements := synaptic_elements_E, params := [] },
    { model := "tif_neuronI", n := populations "I",
      elements := synaptic_elements_I, params := [] },
    { model := "poisson_generator", n := populations "Poisson",
      elements := [], params := poissonExtDict },
    { model := "poisson_generator", n := populations "Poisson",
      elements := [], params := poissonExtDict } ]

/-! ### Claim C4: `__init__` timing parameters and `stabilise` -/

/-- The interval adjustment done by `Sinha2016.__init__`: if
`stabilisation_time % sp_recording_interval != 0` the recording interval is
replaced by `stabilisation_time / 2`. -/
def adjusted_interval (stab iv : ℚ) : ℚ :=
  if fmod stab iv ≠ 0 then stab / 2 else iv

/-- `Sinha2016.stabilisation_time` (seconds). -/
def stabilisation_time : ℚ := 12000

/-- `Sinha2016.sp_recording_interval` after the `__init__` adjustment
(the initial value is `1000.`). -/
def sp_recording_interval : ℚ :=
  adjusted_interval stabilisation_time 1000

/-- Number of elements of `numpy.arange(0, stop, stepq)` for positive
arguments: `ceil (stop / stepq)`. -/
def arange_len (stop stepq : ℚ) : ℕ := (⌈stop / stepq⌉).toNat

/-- `Sinha2016.stabilise`: the sequence of `run_simulation` first arguments,
one per element of `numpy.arange(0, stabilisation_time,
sp_recording_interval)`, each equal to `sp_recording_interval`. -/
def stabilise_calls : List ℚ :=
  List.replicate (arange_len stabilisation_time sp_recording_interval)
    sp_recording_interval

/-! ### Claim C1: the dump calls performed by `run_simulation` -/

/-- The externally visible actions of `Sinha2016.run_simulation`: engine
simulation steps and calls to the five dump methods. -/
inductive SimEvent where
  | simulate : ℚ → SimEvent
  | dumpCaConcentration : SimEvent
  | dumpSynapticElements : SimEvent
  | dumpMeanSynapticWeights : SimEvent
  | dumpAllIEWeights : SimEvent
  | dumpAllEEWeights : SimEvent
  deriving DecidableEq

/-- `Sinha2016.run_simulation(simtime, step)` as its trace of simulation and
dump events.  With `step=True` it loops over `numpy.arange(0, simtime)`
(`⌈simtime⌉` iterations), simulating 1000 ms and dumping the mean synaptic
weights each iteration; with `step=False` it simulates `simtime * 1000` ms
once and then performs the five dumps. -/
def run_simulation_events (simtime : ℚ) (step : Bool) : List SimEvent :=
  if step then
    (List.range (⌈simtime⌉).toNat).flatMap
      (fun _ => [SimEvent.simulate 1000, SimEvent.dumpMeanSynapticWeights])
  else
    [SimEvent.simulate (simtime * 1000),
     SimEvent.dumpCaConcentration,
     SimEvent.dumpSynapticElements,
     SimEvent.dumpMeanSynapticWeights,
     SimEvent.dumpAllIEWeights,
     SimEvent.dumpAllEEWeights]

/-! ### Abstract engine state for the pattern / dump operations

The NEST kernel holds the network; the script only observes and mutates it
through the API.  `SimState` combines the engine data the claims are about
(kernel time, the two neuron populations, the connections with their
weights) with the `Sinha2016` instance attributes the methods update. -/

/-- One connection held by the engine: source node, target node, weight. -/
structure Conn where
  src : ℕ
  tgt : ℕ
  weight : ℚ
  deriving DecidableEq

/-- Combined engine + script state. -/
structure SimState where
  time : ℚ
  neuronsE : List ℕ
  neuronsI : List ℕ
  conns : List Conn
  patterns : List (List ℕ)
  pattern_count : ℕ
  sdP : List (List ℕ)
  sdB : List (List ℕ)
  sdR : List (List ℕ)
  sdL : List (List ℕ)
  recalls : List (List ℕ)
  zeroedIe : List ℕ
  meanWeightsFile : List (List ℚ)
  deriving DecidableEq

/-- `nest.GetConnections(source=srcs, target=tgts)` on the abstract engine
state. -/
def connsFromTo (conns : List Conn) (srcs tgts : List ℕ) : List Conn :=
  conns.filter (fun c => decide (c.src ∈ srcs ∧ c.tgt ∈ tgts))

/-- `nest.GetStatus(conns, "weight")`. -/
def weightsOf (cs : List Conn) : List ℚ := cs.map Conn.weight

/-- `numpy.mean` on an exact list of weights. -/
def npMean (xs : List ℚ) : ℚ := xs.sum / xs.length

/-! ### Claim C5: `store_pattern` -/

/-- Result of `Sinha2016.store_pattern`: the new state plus the two files it
writes (one neuron id per line). -/
structure StoreResult where
  state : SimState
  patternFile : List ℕ
  backgroundFile : List ℕ
  deriving DecidableEq

/-- `Sinha2016.store_pattern`: sample `populations['P']` pattern neurons from
the excitatory population, set the weight of every connection among them to
`24.`, record the pattern, write the pattern/background id files, attach a
spike detector to each group, and increment `pattern_count`. -/
def store_pattern (st : SimState) (rands : List ℕ) : StoreResult :=
  let pattern_neurons := sample st.neuronsE (populations "P") rands
  let newConns := st.conns.map (fun c =>
    if c.src ∈ pattern_neurons ∧ c.tgt ∈ pattern_neurons then
      { c with weight := 24 }
    else c)
  let background_neurons := st.neuronsE.filter (fun n => decide (n ∉ pattern_neurons))
  { state := { st with
      conns := newConns,
      patterns := st.patterns ++ [pattern_neurons],
      sdP := st.sdP ++ [pattern_neurons],
      sdB := st.sdB ++ [background_neurons],
      pattern_count := st.pattern_count + 1 },
    patternFile := pattern_neurons,
    backgroundFile := background_neurons }

/-! ### Claim C6: `dump_mean_synaptic_weights` -/

/-- `Sinha2016.dump_mean_synaptic_weights`: read the four connection classes
from the engine and append one line `meanEE \t meanEI \t meanII \t meanIE`
to the mean-synaptic-weights file (modelled as a list of lines, each line
the list of its tab-separated values in order). -/
def dump_mean_synaptic_weights (st : SimState) : SimState :=
  let mean_weightsIE := npMean (weightsOf (connsFromTo st.conns st.neuronsI st.neuronsE))
  let mean_weightsII := npMean (weightsOf (connsFromTo st.conns st.neuronsI st.neuronsI))
  let mean_weightsEI := npMean (weightsOf (connsFromTo st.conns st.neuronsE st.neuronsI))
  let mean_weightsEE := npMean (weightsOf (connsFromTo st.conns st.neuronsE st.neuronsE))
  { st with meanWeightsFile := st.meanWeightsFile ++
      [[mean_weightsEE, mean_weightsEI, mean_weightsII, mean_weightsIE]] }

/-! ### Claims C9 / C10: deafferentation and recall setup -/

/-- `Sinha2016.recall_time` (ms). -/
def recall_time : ℚ := 1000

/-- `Sinha2016.sparsityStim` set in `__setup_connections`. -/
def sparsityStim : ℚ := 5/100

/-- `Sinha2016.connectionNumberStim`:
`int((populations['STIM'] * populations['R']) * sparsityStim)`. -/
def connectionNumberStim : ℕ :=
  (pyInt (((populations "STIM" : ℚ) * (populations "R" : ℚ)) * sparsityStim)).toNat

/-- Result of `Sinha2016.deaff_pattern`: the sampled deafferented neurons and
the updated state (their `I_e` set to `0.`, a spike detector attached). -/
structure DeaffResult where
  deaffed : List ℕ
  state : SimState
  deriving DecidableEq

/-- `Sinha2016.deaff_pattern(pattern_number)`: read
`patterns[pattern_number - 1]` (Python indexing), sample `populations['D']`
neurons from it, set their `I_e` to `0.` and attach a spike detector.
`none` models the `IndexError` on an out-of-range pattern list access. -/
def deaff_pattern (st : SimState) (pattern_number : ℤ) (rands : List ℕ) :
    Option DeaffResult :=
  (pyIndex st.patterns (pattern_number - 1)).map (fun pattern_neurons =>
    let deaffed_neurons := sample pattern_neurons (populations "D") rands
    { deaffed := deaffed_neurons,
      state := { st with
        zeroedIe := st.zeroedIe ++ deaffed_neurons,
        sdL := st.sdL ++ [deaffed_neurons] } })

/-- `Sinha2016.deaff_last_pattern`: calls
`deaff_pattern(self.pattern_count - 1)`. -/
def deaff_last_pattern (st : SimState) (rands : List ℕ) : Option DeaffResult :=
  deaff_pattern st ((st.pattern_count : ℤ) - 1) rands

/-- The stored pattern a `deaff_pattern(n)` call draws from:
`patterns[n - 1]`. -/
def deaff_source (st : SimState) (pattern_number : ℤ) : Option (List ℕ) :=
  pyIndex st.patterns (pattern_number - 1)

/-- The stored pattern a `setup_pattern_for_recall(n)` call draws from:
`patterns[n - 1]`. -/
def recall_source (st : SimState) (pattern_number : ℤ) : Option (List ℕ) :=
  pyIndex st.patterns (pattern_number - 1)

/-- `Sinha2016.recall_last_pattern` hands `pattern_count` to
`recall_pattern`, which hands it to `setup_pattern_for_recall`; so the
pattern it draws from is `patterns[pattern_count - 1]`. -/
def recall_last_source (st : SimState) : Option (List ℕ) :=
  recall_source st (st.pattern_count : ℤ)

/-- The Poisson stimulus parameter dictionary built by
`setup_pattern_for_recall`. -/
structure StimParams where
  rate : ℚ
  origin : ℚ
  start : ℚ
  stop : ℚ
  deriving DecidableEq

/-- Result of `Sinha2016.setup_pattern_for_recall`. -/
structure RecallResult where
  stim : StimParams
  stimNeuronCount : ℕ
  recallNeurons : List ℕ
  connRule : String
  connN : ℕ
  recallFile : List ℕ
  state : SimState
  deriving DecidableEq

/-- `Sinha2016.setup_pattern_for_recall(pattern_number)`: create a Poisson
generator with rate `200.`, origin the current kernel time, start `0.` and
stop `recall_time`; create `populations['STIM']` parrot neurons; sample
`populations['R']` recall neurons from `patterns[pattern_number - 1]`;
connect the stimulus to them with rule `fixed_total_number` and
`N = connectionNumberStim`; record the recall set and its spike detector. -/
def setup_pattern_for_recall (st : SimState) (pattern_number : ℤ)
    (rands : List ℕ) : Option RecallResult :=
  (pyIndex st.patterns (pattern_number - 1)).map (fun pattern_neurons =>
    let recall_neurons := sample pattern_neurons (populations "R") rands
    { stim := { rate := 200, origin := st.time, start := 0, stop := recall_time },
      stimNeuronCount := populations "STIM",
      recallNeurons := recall_neurons,
      connRule := "fixed_total_number",
      connN := connectionNumberStim,
      recallFile := recall_neurons,
      state := { st with
        recalls := st.recalls ++ [recall_neurons],
        sdR := st.sdR ++ [recall_neurons] } })

/-! ### Claim C7: the dump methods as engine-operation traces

To state the frame property the engine is modelled as a state machine whose
transitions are the NEST API calls the script performs.  Read calls leave
the engine unchanged; `SetStatus`, `Simulate`, `Connect` and `Create` change
it.  Each dump method is embedded as the trace of API calls it performs. -/

/-- Abstract engine kernel state. -/
structure Engine where
  time : ℚ
  paramWrites : List (ℕ × String × ℚ)
  conns : List Conn
  nextNode : ℕ
  deriving DecidableEq

/-- The NEST API calls the script uses. -/
inductive NestOp where
  | getKernelStatus : NestOp
  | getStatusAll : List ℕ → NestOp
  | getStatus : List ℕ → String → NestOp
  | getConnections : List ℕ → List ℕ → NestOp
  | getWeights : List ℕ → List ℕ → NestOp
  | setStatus : List ℕ → String → ℚ → NestOp
  | simulate : ℚ → NestOp
  | connect : List ℕ → List ℕ → NestOp
  | create : String → ℕ → NestOp
  deriving DecidableEq

/-- Effect of one API call on the engine. -/
def applyOp (e : Engine) : NestOp → Engine
  | NestOp.getKernelStatus => e
  | NestOp.getStatusAll _ => e
  | NestOp.getStatus _ _ => e
  | NestOp.getConnections _ _ => e
  | NestOp.getWeights _ _ => e
  | NestOp.setStatus nodes key v =>
      { e with paramWrites := e.paramWrites ++ nodes.map (fun n => (n, key, v)) }
  | NestOp.simulate ms => { e with time := e.time + ms }
  | NestOp.connect srcs tgts =>
      { e with conns := e.conns ++
          srcs.flatMap (fun s => tgts.map (fun t => { src := s, tgt := t, weight := 0 })) }
  | NestOp.create _ n => { e with nextNode := e.nextNode + n }

/-- Run a trace of API calls. -/
def runOps (e : Engine) (ops : List NestOp) : Engine := ops.foldl applyOp e

/-- API calls of `dump_ca_concentration`: `GetStatus` on both populations to
find the local neurons, then `GetStatus(..., 'Ca')` on each local set. -/
def ops_dump_ca_concentration (nE nI locE locI : List ℕ) : List NestOp :=
  [NestOp.getStatusAll nE, NestOp.getStatusAll nI,
   NestOp.getStatus locE "Ca", NestOp.getStatus locI "Ca"]

/-- API calls of `dump_synaptic_elements`. -/
def ops_dump_synaptic_elements (nE nI locE locI : List ℕ) : List NestOp :=
  [NestOp.getStatusAll nE, NestOp.getStatusAll nI,
   NestOp.getStatus locE "synaptic_elements",
   NestOp.getStatus locI "synaptic_elements"]

/-- API calls of `dump_mean_synaptic_weights`: four
`GetConnections` / `GetStatus(..., 'weight')` pairs (IE, II, EI, EE in
source order). -/
def ops_dump_mean_synaptic_weights (nE nI : List ℕ) : List NestOp :=
  [NestOp.getConnections nI nE, NestOp.getWeights nI nE,
   NestOp.getConnections nI nI, NestOp.getWeights nI nI,
   NestOp.getConnections nE nI, NestOp.getWeights nE nI,
   NestOp.getConnections nE nE, NestOp.getWeights nE nE]

/-- API calls of `dump_all_IE_weights`: `GetKernelStatus` (for the file
name), `GetConnections(I, E)`, `GetStatus(..., 'weight')`. -/
def ops_dump_all_IE_weights (nE nI : List ℕ) : List NestOp :=
  [NestOp.getKernelStatus, NestOp.getConnections nI nE, NestOp.getWeights nI nE]

/-- API calls of `dump_all_EE_weights`. -/
def ops_dump_all_EE_weights (nE _nI : List ℕ) : List NestOp :=
  [NestOp.getKernelStatus, NestOp.getConnections nE nE, NestOp.getWeights nE nE]

/-! ### Claim C8: `__create_sparse_list` -/

/-- `Sinha2016.__create_sparse_list(length, static_w, sparsity)`:
`int(length * sparsity)` copies of `float(static_w)` followed by
`int(length - valid_values)` zeros, then `random.shuffle`d. -/
def create_sparse_list (length : ℕ) (static_w sparsity : ℚ)
    (rands : List ℕ) : List ℚ :=
  let valid_values : ℤ := pyInt ((length : ℚ) * sparsity)
  let weights :=
    List.replicate valid_values.toNat static_w ++
    List.replicate ((length : ℤ) - valid_values).toNat 0
  shuffle weights rands

/-! ### Concrete states used by the witnesses -/

/-- A concrete state with the full-size populations (used to witness the
`store_pattern` theorem). -/
def exampleStateBig : SimState :=
  { time := 0,
    neuronsE := List.range 8000,
    neuronsI := (List.range 2000).map (fun x => 8000 + x),
    conns := [{ src := 0, tgt := 1, weight := 3 }],
    patterns := [],
    pattern_count := 0,
    sdP := [], sdB := [], sdR := [], sdL := [],
    recalls := [], zeroedIe := [], meanWeightsFile := [] }

/-- A concrete state with two stored 800-neuron patterns (used to witness
the deafferentation / recall theorems). -/
def exampleStatePat : SimState :=
  { time := 2500,
    neuronsE := List.range 8000,
    neuronsI := (List.range 2000).map (fun x => 8000 + x),
    conns := [{ src := 0, tgt := 1, weight := 3 }],
    patterns := [List.range 800, (List.range 800).map (fun x => 1000 + x)],
    pattern_count := 2,
    sdP := [], sdB := [], sdR := [], sdL := [],
    recalls := [], zeroedIe := [], meanWeightsFile := [] }

/-- A small concrete state with at least one connection in each of the four
connection classes (used to witness the mean-weights theorem). -/
def exampleStateSmall : SimState :=
  { time := 0,
    neuronsE := [0, 1],
    neuronsI := [2, 3],
    conns := [{ src := 0, tgt := 1, weight := 3 },
              { src := 0, tgt := 2, weight := 3 },
              { src := 2, tgt := 3, weight := -30 },
              { src := 2, tgt := 0, weight := -1/10000000 }],
    patterns := [],
    pattern_count := 0,
    sdP := [], sdB := [], sdR := [], sdL := [],
    recalls := [], zeroedIe := [], meanWeightsFile := [] }

/-! ## Helper lemmas -/

theorem sample_length {α : Type} [DecidableEq α] (k : ℕ) (pop : List α)
    (rands : List ℕ) (h : k ≤ pop.length) : (sample pop k rands).length = k := by
  induction k generalizing pop rands with
  | zero => simp [sample]
  | succ k ih =>
    have hne : pop ≠ [] := by
      intro he; rw [he] at h; simp at h
    rw [sample, dif_pos hne]
    simp only [List.length_cons]
    rw [ih]
    have hm : pop.get ⟨rands.headD 0 % pop.length,
        Nat.mod_lt _ (List.length_pos.mpr hne)⟩ ∈ pop := List.get_mem _ _ _
    rw [List.length_erase_of_mem hm]
    omega

theorem sample_subset {α : Type} [DecidableEq α] (k : ℕ) (pop : List α)
    (rands : List ℕ) : sample pop k rands ⊆ pop := by
  induction k generalizing pop rands with
  | zero => simp [sample]
  | succ k ih =>
    by_cases hne : pop ≠ []
    · rw [sample, dif_pos hne]
      intro y hy
      rcases List.mem_cons.mp hy with h | h
      · exact h ▸ List.get_mem _ _ _
      · exact List.erase_subset _ _ (ih _ _ h)
    · rw [sample, dif_neg hne]
      simp

theorem sample_nodup {α : Type} [DecidableEq α] (k : ℕ) (pop : List α)
    (rands : List ℕ) (h : pop.Nodup) : (sample pop k rands).Nodup := by
  induction k generalizing pop rands with
  | zero => simp [sample]
  | succ k ih =>
    by_cases hne : pop ≠ []
    · rw [sample, dif_pos hne]
      refine List.nodup_cons.mpr ⟨fun hmem => ?_, ih _ _ (h.erase _)⟩
      exact h.not_mem_erase (sample_subset _ _ _ hmem)
    · rw [sample, dif_neg hne]
      simp

theorem sample_perm {α : Type} [DecidableEq α] (k : ℕ) (pop : List α)
    (rands : List ℕ) (h : pop.length = k) : (sample pop k rands).Perm pop := by
  induction k generalizing pop rands with
  | zero =>
    rw [List.length_eq_zero] at h
    simp [sample, h]
  | succ k ih =>
    have hne : pop ≠ [] := by
      intro he; rw [he] at h; simp at h
    rw [sample, dif_pos hne]
    have hm : pop.get ⟨rands.headD 0 % pop.length,
        Nat.mod_lt _ (List.length_pos.mpr hne)⟩ ∈ pop := List.get_mem _ _ _
    have hlen : (pop.erase (pop.get ⟨rands.headD 0 % pop.length,
        Nat.mod_lt _ (List.length_pos.mpr hne)⟩)).length = k := by
      rw [List.length_erase_of_mem hm]; omega
    exact ((ih _ _ hlen).cons _).trans (List.perm_cons_erase hm).symm

theorem shuffle_perm {α : Type} [DecidableEq α] (xs : List α)
    (rands : List ℕ) : (shuffle xs rands).Perm xs :=
  sample_perm _ _ _ rfl

theorem pyIndex_of_nonneg {α : Type} (l : List α) (i : ℤ) (h : 0 ≤ i) :
    pyIndex l i = l[i.toNat]? := by
  unfold pyIndex
  rw [if_neg (by omega)]

/-! ## Claim theorems -/

/-- Claim C2 (evidence for the code bug): executing the module-level code of
`vogels2005.py` cannot perform its configuration to completion.  The
seven import statements succeed and bind the module names, but the next
statement, `self.neuronDict = ...` (line 34), references the name `self`,
which is never bound at module level, so execution stops with
`NameError: name 'self' is not defined` before any engine call is made. -/
theorem C2_vogels2005_module_raises_NameError :
    runStmts (vogels2005_stmts.take 7) [] =
      Except.ok ["print_function", "sys", "nest", "numpy", "math", "random"]
    ∧ runStmts vogels2005_stmts [] = Except.error "self" :=
  ⟨rfl, rfl⟩

/-- Claim C3: `setup_simulation` wires the populations as parameterised.
`__create_neurons` issues exactly four `nest.Create` calls:
`populations['E'] = 8000` neurons of model `tif_neuronE` carrying
`synaptic_elements_E`, `populations['I'] = 2000` neurons of model
`tif_neuronI` carrying `synaptic_elements_I`, and one Poisson generator each
for the excitatory and the inhibitory external drive; and `__setup_neurons`
gives both neuron models the same defaults dictionary `neuronDict`, with
`V_th = -50`, `V_reset = -60`, `E_L = -60`. -/
theorem C3_setup_and_create_neurons :
    create_neurons_calls.map CreateCall.model =
      ["tif_neuronE", "tif_neuronI", "poisson_generator", "poisson_generator"]
    ∧ create_neurons_calls.map CreateCall.n =
      [populations "E", populations "I", populations "Poisson", populations "Poisson"]
    ∧ populations "E" = 8000 ∧ populations "I" = 2000 ∧ populations "Poisson" = 1
    ∧ create_neurons_calls.map CreateCall.elements =
      [synaptic_elements_E, synaptic_elements_I, [], []]
    ∧ tif_models.map ModelDef.base = ["iaf_cond_exp", "iaf_cond_exp"]
    ∧ tif_models.map ModelDef.name = ["tif_neuronE", "tif_neuronI"]
    ∧ tif_models.map ModelDef.defaults = [neuronDict, neuronDict]
    ∧ neuronDict.lookup "V_th" = some (-50)
    ∧ neuronDict.lookup "V_reset" = some (-60)
    ∧ neuronDict.lookup "E_L" = some (-60) :=
  ⟨rfl, rfl, rfl, rfl, rfl, rfl, rfl, rfl, rfl, rfl, rfl, rfl⟩

/-- Claim C4: `stabilise` simulates exactly `stabilisation_time` seconds in
epochs of `sp_recording_interval` seconds: it calls
`run_simulation(sp_recording_interval, ...)` exactly
`ceil(stabilisation_time / sp_recording_interval)` times (here 12), the
constructor's adjustment makes `stabilisation_time` an exact multiple of
`sp_recording_interval` (for any nonzero stabilisation time, replacing the
interval by `stabilisation_time / 2` whenever the division does not come out
even), and the epochs sum to `stabilisation_time`. -/
theorem C4_stabilise_epochs (stab iv : ℚ) (hst : stab ≠ 0) :
    fmod stab (adjusted_interval stab iv) = 0
    ∧ sp_recording_interval = 1000
    ∧ stabilise_calls.length = (⌈stabilisation_time / sp_recording_interval⌉).toNat
    ∧ stabilise_calls.length = 12
    ∧ (∀ c ∈ stabilise_calls, c = sp_recording_interval)
    ∧ (stabilise_calls.length : ℚ) * sp_recording_interval = stabilisation_time := by
  have hsp : sp_recording_interval = 1000 := by
    unfold sp_recording_interval adjusted_interval fmod stabilisation_time
    norm_num
  have hlen : stabilise_calls.length =
      (⌈stabilisation_time / sp_recording_interval⌉).toNat := by
    simp [stabilise_calls, arange_len]
  have h12 : stabilise_calls.length = 12 := by
    rw [hlen, hsp]
    unfold stabilisation_time
    have hc : ⌈(12000 : ℚ) / 1000⌉ = 12 := by norm_num
    rw [hc]
    rfl
  refine ⟨?_, hsp, hlen, h12, ?_, ?_⟩
  · unfold adjusted_interval
    by_cases h : fmod stab iv ≠ 0
    · rw [if_pos h]
      unfold fmod
      have h2 : stab / (stab / 2) = 2 := by
        field_simp
      rw [h2]
      norm_num
    · rw [if_neg h]
      push_neg at h
      exact h
  · intro c hc
    exact List.eq_of_mem_replicate hc
  · rw [h12, hsp]
    unfold stabilisation_time
    norm_num

/-- Claim C4 witness: the hypothesis holds at the constructor's actual
values. -/
theorem C4_stabilise_epochs_witness :
    ((12000 : ℚ) ≠ 0)
    ∧ (fmod 12000 (adjusted_interval 12000 1000) = 0
       ∧ sp_recording_interval = 1000
       ∧ stabilise_calls.length = (⌈stabilisation_time / sp_recording_interval⌉).toNat
       ∧ stabilise_calls.length = 12
       ∧ (∀ c ∈ stabilise_calls, c = sp_recording_interval)
       ∧ (stabilise_calls.length : ℚ) * sp_recording_interval = stabilisation_time) :=
  ⟨by norm_num, C4_stabilise_epochs 12000 1000 (by norm_num)⟩

/-- Claim C1 counterexample: the claim fails for `step=True`.  The concrete
call `run_simulation(2, step=True)` produces two one-second epochs, each
followed only by `dump_mean_synaptic_weights`; `dump_ca_concentration` and
`dump_synaptic_elements` are never invoked during the call. -/
theorem C1_counterexample_step_true :
    SimEvent.dumpCaConcentration ∉ run_simulation_events 2 true
    ∧ SimEvent.dumpSynapticElements ∉ run_simulation_events 2 true := by
  have hc2 : ⌈(2 : ℚ)⌉ = 2 := by norm_num
  have hc : (⌈(2 : ℚ)⌉).toNat = 2 := by rw [hc2]; rfl
  have h : run_simulation_events 2 true =
      [SimEvent.simulate 1000, SimEvent.dumpMeanSynapticWeights,
       SimEvent.simulate 1000, SimEvent.dumpMeanSynapticWeights] := by
    unfold run_simulation_events
    rw [if_pos rfl, hc]
    rfl
  rw [h]
  decide

/-- Claim C1 as amended: an epoch run by `run_simulation` with `step=False`
simulates the requested time and then dumps all three diagnostic series
(calcium concentration, synaptic element counts, mean synaptic weights,
followed by the IE and EE weight dumps); with `step=True` the call dumps
only the mean synaptic weights (once per simulated second, so at least once
when `simtime ≥ 1`), and never the calcium concentration or the synaptic
element counts. -/
theorem C1_run_simulation_dumps (simtime : ℚ) (hst : 1 ≤ simtime) :
    run_simulation_events simtime false =
      [SimEvent.simulate (simtime * 1000),
       SimEvent.dumpCaConcentration,
       SimEvent.dumpSynapticElements,
       SimEvent.dumpMeanSynapticWeights,
       SimEvent.dumpAllIEWeights,
       SimEvent.dumpAllEEWeights]
    ∧ SimEvent.dumpMeanSynapticWeights ∈ run_simulation_events simtime true
    ∧ SimEvent.dumpCaConcentration ∉ run_simulation_events simtime true
    ∧ SimEvent.dumpSynapticElements ∉ run_simulation_events simtime true := by
  refine ⟨rfl, ?_, ?_, ?_⟩
  · have hpos : 0 < (⌈simtime⌉).toNat := by
      have : (0 : ℤ) < ⌈simtime⌉ := Int.ceil_pos.mpr (lt_of_lt_of_le one_pos hst)
      omega
    unfold run_simulation_events
    rw [if_pos rfl]
    refine List.mem_flatMap.mpr ⟨0, List.mem_range.mpr hpos, ?_⟩
    simp
  · unfold run_simulation_events
    rw [if_pos rfl]
    intro hmem
    rcases List.mem_flatMap.mp hmem with ⟨a, _, hin⟩
    simp at hin
  · unfold run_simulation_events
    rw [if_pos rfl]
    intro hmem
    rcases List.mem_flatMap.mp hmem with ⟨a, _, hin⟩
    simp at hin

/-- Claim C1 witness: the amended statement at the concrete call
`run_simulation(2, ...)`. -/
theorem C1_run_simulation_dumps_witness :
    (1 ≤ (2 : ℚ))
    ∧ (run_simulation_events 2 false =
        [SimEvent.simulate (2 * 1000),
         SimEvent.dumpCaConcentration,
         SimEvent.dumpSynapticElements,
         SimEvent.dumpMeanSynapticWeights,
         SimEvent.dumpAllIEWeights,
         SimEvent.dumpAllEEWeights]
       ∧ SimEvent.dumpMeanSynapticWeights ∈ run_simulation_events 2 true
       ∧ SimEvent.dumpCaConcentration ∉ run_simulation_events 2 true
       ∧ SimEvent.dumpSynapticElements ∉ run_simulation_events 2 true) :=
  ⟨by norm_num, C1_run_simulation_dumps 2 (by norm_num)⟩

/-- Claim C6: each `dump_mean_synaptic_weights` call appends exactly one
line to the mean-synaptic-weights file, whose tab-separated values are, in
this order, the mean of the E→E weights, the mean of the E→I weights, the
mean of the I→I weights, and the mean of the I→E weights, all read from the
engine's connections at the time of the call.  (The nonemptiness hypotheses
keep `numpy.mean` well defined on each class.) -/
theorem C6_dump_mean_synaptic_weights (st : SimState)
    (_hIE : connsFromTo st.conns st.neuronsI st.neuronsE ≠ [])
    (_hII : connsFromTo st.conns st.neuronsI st.neuronsI ≠ [])
    (_hEI : connsFromTo st.conns st.neuronsE st.neuronsI ≠ [])
    (_hEE : connsFromTo st.conns st.neuronsE st.neuronsE ≠ []) :
    (dump_mean_synaptic_weights st).meanWeightsFile =
      st.meanWeightsFile ++
        [[npMean (weightsOf (connsFromTo st.conns st.neuronsE st.neuronsE)),
          npMean (weightsOf (connsFromTo st.conns st.neuronsE st.neuronsI)),
          npMean (weightsOf (connsFromTo st.conns st.neuronsI st.neuronsI)),
          npMean (weightsOf (connsFromTo st.conns st.neuronsI st.neuronsE))]]
    ∧ ((dump_mean_synaptic_weights st).meanWeightsFile).length =
      st.meanWeightsFile.length + 1 := by
  constructor
  · rfl
  · simp [dump_mean_synaptic_weights]

/-- Claim C6 witness: the statement at a concrete state holding at least one
connection of each class. -/
theorem C6_dump_mean_synaptic_weights_witness :
    (connsFromTo exampleStateSmall.conns exampleStateSmall.neuronsI
        exampleStateSmall.neuronsE ≠ []
     ∧ connsFromTo exampleStateSmall.conns exampleStateSmall.neuronsI
        exampleStateSmall.neuronsI ≠ []
     ∧ connsFromTo exampleStateSmall.conns exampleStateSmall.neuronsE
        exampleStateSmall.neuronsI ≠ []
     ∧ connsFromTo exampleStateSmall.conns exampleStateSmall.neuronsE
        exampleStateSmall.neuronsE ≠ [])
    ∧ ((dump_mean_synaptic_weights exampleStateSmall).meanWeightsFile =
        exampleStateSmall.meanWeightsFile ++
          [[npMean (weightsOf (connsFromTo exampleStateSmall.conns
              exampleStateSmall.neuronsE exampleStateSmall.neuronsE)),
            npMean (weightsOf (connsFromTo exampleStateSmall.conns
              exampleStateSmall.neuronsE exampleStateSmall.neuronsI)),
            npMean (weightsOf (connsFromTo exampleStateSmall.conns
              exampleStateSmall.neuronsI exampleStateSmall.neuronsI)),
            npMean (weightsOf (connsFromTo exampleStateSmall.conns
              exampleStateSmall.neuronsI exampleStateSmall.neuronsE))]]
       ∧ ((dump_mean_synaptic_weights exampleStateSmall).meanWeightsFile).length =
          exampleStateSmall.meanWeightsFile.length + 1) :=
  ⟨⟨by decide, by decide, by decide, by decide⟩,
   C6_dump_mean_synaptic_weights exampleStateSmall
     (by decide) (by decide) (by decide) (by decide)⟩

/-- Claim C7: the five dump methods are pure observers of the simulator.
Each performs only read API calls (`GetKernelStatus`, `GetStatus`,
`GetConnections`), so running its trace leaves every piece of engine state —
kernel time, parameter writes, connections — unchanged; only the
state-evolving calls (`SetStatus`, `Simulate`, `Connect`, `Create`), which
the dump traces do not contain, modify the engine. -/
theorem C7_dumps_leave_engine_unchanged (e : Engine) (nE nI locE locI : List ℕ) :
    runOps e (ops_dump_ca_concentration nE nI locE locI) = e
    ∧ runOps e (ops_dump_synaptic_elements nE nI locE locI) = e
    ∧ runOps e (ops_dump_mean_synaptic_weights nE nI) = e
    ∧ runOps e (ops_dump_all_IE_weights nE nI) = e
    ∧ runOps e (ops_dump_all_EE_weights nE nI) = e :=
  ⟨rfl, rfl, rfl, rfl, rfl⟩

/-- Claim C5: every `store_pattern` call selects exactly
`populations['P'] = 800` distinct excitatory neurons, sets the weight of
every existing connection among those neurons to `24.` while leaving every
other connection untouched, appends the selected set to `self.patterns`,
writes the pattern and background neuron ids to the two files, attaches a
spike detector to each of the two groups, and increments `pattern_count` by
exactly one. -/
theorem C5_store_pattern (st : SimState) (rands : List ℕ)
    (hnd : st.neuronsE.Nodup) (hlen : populations "P" ≤ st.neuronsE.length) :
    (sample st.neuronsE (populations "P") rands).length = 800
    ∧ (sample st.neuronsE (populations "P") rands).Nodup
    ∧ sample st.neuronsE (populations "P") rands ⊆ st.neuronsE
    ∧ (store_pattern st rands).state.patterns =
        st.patterns ++ [sample st.neuronsE (populations "P") rands]
    ∧ (store_pattern st rands).state.pattern_count = st.pattern_count + 1
    ∧ List.Forall₂ (fun c c2 =>
        (c.src ∈ sample st.neuronsE (populations "P") rands ∧
         c.tgt ∈ sample st.neuronsE (populations "P") rands →
           c2 = { c with weight := 24 })
        ∧ (¬(c.src ∈ sample st.neuronsE (populations "P") rands ∧
             c.tgt ∈ sample st.neuronsE (populations "P") rands) → c2 = c))
        st.conns (store_pattern st rands).state.conns
    ∧ (store_pattern st rands).patternFile =
        sample st.neuronsE (populations "P") rands
    ∧ (∀ x, x ∈ (store_pattern st rands).backgroundFile ↔
        x ∈ st.neuronsE ∧ x ∉ sample st.neuronsE (populations "P") rands)
    ∧ (store_pattern st rands).state.sdP =
        st.sdP ++ [sample st.neuronsE (populations "P") rands]
    ∧ (store_pattern st rands).state.sdB =
        st.sdB ++ [(store_pattern st rands).backgroundFile] := by
  refine ⟨(sample_length _ _ _ hlen).trans rfl, sample_nodup _ _ _ hnd,
    sample_subset _ _ _, rfl, rfl, ?_, rfl, ?_, rfl, rfl⟩
  · have hc : (store_pattern st rands).state.conns =
        st.conns.map (fun c =>
          if c.src ∈ sample st.neuronsE (populations "P") rands ∧
             c.tgt ∈ sample st.neuronsE (populations "P") rands then
            { c with weight := 24 }
          else c) := rfl
    rw [hc, List.forall₂_map_right_iff, List.forall₂_same]
    intro c _
    constructor
    · intro h
      rw [if_pos h]
    · intro h
      rw [if_neg h]
  · intro x
    have hb : (store_pattern st rands).backgroundFile =
        st.neuronsE.filter (fun m =>
          decide (m ∉ sample st.neuronsE (populations "P") rands)) := rfl
    rw [hb, List.mem_filter]
    simp

/-- Claim C5 witness: the hypotheses hold at the concrete full-size state,
so a concrete `store_pattern` call selects 800 pattern neurons. -/
theorem C5_store_pattern_witness :
    exampleStateBig.neuronsE.Nodup
    ∧ populations "P" ≤ exampleStateBig.neuronsE.length
    ∧ (sample exampleStateBig.neuronsE (populations "P") []).length = 800 := by
  have he : exampleStateBig.neuronsE = List.range 8000 := by
    simp only [exampleStateBig]
  have h1 : exampleStateBig.neuronsE.Nodup := by
    rw [he]
    exact List.nodup_range 8000
  have h2 : populations "P" ≤ exampleStateBig.neuronsE.length := by
    rw [he, List.length_range]
    decide
  exact ⟨h1, h2, (C5_store_pattern exampleStateBig [] h1 h2).1⟩

/-- Claim C8: for every length, nonzero weight and sparsity `s` with
`0 ≤ s ≤ 1`, `__create_sparse_list(length, static_w, s)` returns a list of
exactly `length` elements that is a permutation of `int(length * s)` copies
of `static_w` followed by `length - int(length * s)` zeros; its number of
nonzero entries is `int(length * s)`. -/
theorem C8_create_sparse_list (length : ℕ) (static_w s : ℚ) (rands : List ℕ)
    (h0 : 0 ≤ s) (h1 : s ≤ 1) (hw : static_w ≠ 0) :
    (create_sparse_list length static_w s rands).length = length
    ∧ (create_sparse_list length static_w s rands).Perm
        (List.replicate (pyInt ((length : ℚ) * s)).toNat static_w ++
         List.replicate (length - (pyInt ((length : ℚ) * s)).toNat) 0)
    ∧ (create_sparse_list length static_w s rands).countP
        (fun x => decide (x ≠ 0)) = (pyInt ((length : ℚ) * s)).toNat := by
  have hprod0 : 0 ≤ (length : ℚ) * s := mul_nonneg (Nat.cast_nonneg _) h0
  have hpy : pyInt ((length : ℚ) * s) = ⌊(length : ℚ) * s⌋ := by
    unfold pyInt
    rw [if_neg (not_lt.mpr hprod0)]
  have hge : 0 ≤ pyInt ((length : ℚ) * s) := by
    rw [hpy]
    exact Int.floor_nonneg.mpr hprod0
  have hle : pyInt ((length : ℚ) * s) ≤ (length : ℤ) := by
    rw [hpy]
    have hls : (length : ℚ) * s ≤ (length : ℚ) := by
      calc (length : ℚ) * s ≤ (length : ℚ) * 1 :=
        mul_le_mul_of_nonneg_left h1 (Nat.cast_nonneg _)
      _ = (length : ℚ) := mul_one _
    calc ⌊(length : ℚ) * s⌋ ≤ ⌊(length : ℚ)⌋ := Int.floor_le_floor hls
    _ = (length : ℤ) := Int.floor_natCast _
  have hbase : create_sparse_list length static_w s rands =
      shuffle (List.replicate (pyInt ((length : ℚ) * s)).toNat static_w ++
        List.replicate (length - (pyInt ((length : ℚ) * s)).toNat) 0) rands := by
    simp only [create_sparse_list]
    rw [show ((length : ℤ) - pyInt ((length : ℚ) * s)).toNat =
      length - (pyInt ((length : ℚ) * s)).toNat from by omega]
  have hperm : (create_sparse_list length static_w s rands).Perm
      (List.replicate (pyInt ((length : ℚ) * s)).toNat static_w ++
       List.replicate (length - (pyInt ((length : ℚ) * s)).toNat) 0) := by
    rw [hbase]
    exact shuffle_perm _ _
  refine ⟨?_, hperm, ?_⟩
  · rw [hperm.length_eq]
    simp only [List.length_append, List.length_replicate]
    omega
  · rw [hperm.countP_eq]
    rw [List.countP_append, List.countP_replicate, List.countP_replicate]
    rw [if_pos (by simpa using hw), if_neg (by simp)]
    omega

/-- Claim C8 witness: the statement at a concrete invocation
(`length = 10`, `static_w = 3`, `sparsity = 1/2`). -/
theorem C8_create_sparse_list_witness :
    (0 ≤ (1 : ℚ)/2) ∧ ((1 : ℚ)/2 ≤ 1) ∧ ((3 : ℚ) ≠ 0)
    ∧ (create_sparse_list 10 3 (1/2) [0, 1, 2]).length = 10 :=
  ⟨by norm_num, by norm_num, by norm_num,
   (C8_create_sparse_list 10 3 (1/2) [0, 1, 2]
     (by norm_num) (by norm_num) (by norm_num)).1⟩

/-- Claim C9: `deaff_last_pattern` calls `deaff_pattern(pattern_count - 1)`,
and `deaff_pattern(m)` samples its `populations['D'] = 200` deafferented
neurons from `patterns[m - 1]`, so `deaff_last_pattern` draws from
`patterns[pattern_count - 2]` — the second-to-last stored pattern — while
`recall_last_pattern`'s convention reaches `patterns[pattern_count - 1]`
(hence at least two stored patterns are needed for the two to differ as
stated). -/
theorem C9_deaff_last_pattern_indexing (st : SimState) (rands : List ℕ)
    (hplen : st.patterns.length = st.pattern_count)
    (hpc : 2 ≤ st.pattern_count)
    (hpat : ∀ p ∈ st.patterns, p.Nodup ∧ populations "D" ≤ p.length) :
    deaff_last_pattern st rands =
      deaff_pattern st ((st.pattern_count : ℤ) - 1) rands
    ∧ (∀ m : ℤ, deaff_source st m = pyIndex st.patterns (m - 1))
    ∧ deaff_source st ((st.pattern_count : ℤ) - 1) =
        st.patterns[st.pattern_count - 2]?
    ∧ recall_last_source st = st.patterns[st.pattern_count - 1]?
    ∧ populations "D" = 200
    ∧ (∃ pat res, st.patterns[st.pattern_count - 2]? = some pat
        ∧ deaff_last_pattern st rands = some res
        ∧ res.deaffed = sample pat (populations "D") rands
        ∧ res.deaffed.length = populations "D"
        ∧ res.deaffed.Nodup
        ∧ res.deaffed ⊆ pat
        ∧ res.state.zeroedIe = st.zeroedIe ++ res.deaffed
        ∧ res.state.sdL = st.sdL ++ [res.deaffed]) := by
  have h2lt : st.pattern_count - 2 < st.patterns.length := by omega
  have h1lt : st.pattern_count - 1 < st.patterns.length := by omega
  have hidx2 : (st.pattern_count : ℤ) - 1 - 1 = (st.pattern_count : ℤ) - 2 := by
    ring
  have hsome : pyIndex st.patterns ((st.pattern_count : ℤ) - 1 - 1) =
      some (st.patterns.get ⟨st.pattern_count - 2, h2lt⟩) := by
    rw [hidx2, pyIndex_of_nonneg _ _ (by omega),
      show ((st.pattern_count : ℤ) - 2).toNat = st.pattern_count - 2 from by omega,
      List.getElem?_eq_getElem h2lt, List.get_eq_getElem]
  obtain ⟨hnd, hdlen⟩ := hpat _ (List.get_mem st.patterns (st.pattern_count - 2) h2lt)
  refine ⟨rfl, fun m => rfl, ?_, ?_, rfl, ?_⟩
  · show pyIndex st.patterns ((st.pattern_count : ℤ) - 1 - 1) = _
    rw [hsome, List.getElem?_eq_getElem h2lt, List.get_eq_getElem]
  · show pyIndex st.patterns ((st.pattern_count : ℤ) - 1) = _
    rw [pyIndex_of_nonneg _ _ (by omega),
      show ((st.pattern_count : ℤ) - 1).toNat = st.pattern_count - 1 from by omega]
  · refine ⟨st.patterns.get ⟨st.pattern_count - 2, h2lt⟩,
      { deaffed := sample (st.patterns.get ⟨st.pattern_count - 2, h2lt⟩)
          (populations "D") rands,
        state := { st with
          zeroedIe := st.zeroedIe ++
            sample (st.patterns.get ⟨st.pattern_count - 2, h2lt⟩)
              (populations "D") rands,
          sdL := st.sdL ++
            [sample (st.patterns.get ⟨st.pattern_count - 2, h2lt⟩)
              (populations "D") rands] } },
      ?_, ?_, rfl, sample_length _ _ _ hdlen, sample_nodup _ _ _ hnd,
      sample_subset _ _ _, rfl, rfl⟩
    · rw [List.getElem?_eq_getElem h2lt, List.get_eq_getElem]
    · show deaff_pattern st ((st.pattern_count : ℤ) - 1) rands = _
      unfold deaff_pattern
      rw [hsome]
      rfl

/-- All patterns of the concrete two-pattern state are duplicate-free and
have exactly 800 neurons. -/
theorem exampleStatePat_patterns_fact :
    ∀ p ∈ exampleStatePat.patterns, p.Nodup ∧ p.length = 800 := by
  have hp : exampleStatePat.patterns =
      [List.range 800, (List.range 800).map (fun x => 1000 + x)] := by
    simp only [exampleStatePat]
  rw [hp]
  refine List.forall_mem_cons.mpr
    ⟨⟨List.nodup_range 800, List.length_range 800⟩, ?_⟩
  refine List.forall_mem_cons.mpr ⟨⟨(List.nodup_range 800).map ?_, ?_⟩, ?_⟩
  · intro a b hab
    have hab2 : 1000 + a = 1000 + b := hab
    omega
  · rw [List.length_map, List.length_range]
  · intro p hp2
    simp at hp2

/-- Claim C9 witness: the hypotheses hold at the concrete two-pattern state,
where `deaff_last_pattern` indeed hands `pattern_count - 1` on to
`deaff_pattern`. -/
theorem C9_deaff_last_pattern_indexing_witness :
    exampleStatePat.patterns.length = exampleStatePat.pattern_count
    ∧ 2 ≤ exampleStatePat.pattern_count
    ∧ (∀ p ∈ exampleStatePat.patterns, p.Nodup ∧ populations "D" ≤ p.length)
    ∧ deaff_last_pattern exampleStatePat [] =
        deaff_pattern exampleStatePat ((exampleStatePat.pattern_count : ℤ) - 1) [] := by
  have hplen : exampleStatePat.patterns.length = exampleStatePat.pattern_count := by
    simp only [exampleStatePat]
    rfl
  have hpc : 2 ≤ exampleStatePat.pattern_count := by
    simp only [exampleStatePat]
    omega
  have hpat : ∀ p ∈ exampleStatePat.patterns, p.Nodup ∧ populations "D" ≤ p.length := by
    intro p hp
    obtain ⟨h1, h2⟩ := exampleStatePat_patterns_fact p hp
    exact ⟨h1, by rw [h2]; decide⟩
  exact ⟨hplen, hpc, hpat,
    (C9_deaff_last_pattern_indexing exampleStatePat [] hplen hpc hpat).1⟩

/-- Claim C10: for `1 ≤ n ≤ pattern_count`,
`setup_pattern_for_recall(n)` samples exactly `populations['R'] = 400`
distinct recall neurons from the 800-neuron stored pattern
`patterns[n - 1]`, creates a Poisson stimulus of rate `200.` whose origin is
the kernel time at the call and which stops after `recall_time = 1000` ms,
and connects the `populations['STIM']` stimulus neurons to the recall set
with rule `fixed_total_number` and
`connectionNumberStim = int(1000 * 400 * 0.05) = 20000` connections. -/
theorem C10_setup_pattern_for_recall (st : SimState) (n : ℕ) (rands : List ℕ)
    (hn1 : 1 ≤ n) (hn2 : n ≤ st.pattern_count)
    (hplen : st.patterns.length = st.pattern_count)
    (hpat : ∀ p ∈ st.patterns, p.Nodup ∧ p.length = populations "P") :
    populations "R" = 400 ∧ populations "P" = 800
    ∧ connectionNumberStim = 20000 ∧ recall_time = 1000
    ∧ (∃ pat res, st.patterns[n - 1]? = some pat
        ∧ setup_pattern_for_recall st (n : ℤ) rands = some res
        ∧ res.recallNeurons = sample pat (populations "R") rands
        ∧ res.recallNeurons.length = populations "R"
        ∧ res.recallNeurons.Nodup
        ∧ res.recallNeurons ⊆ pat
        ∧ res.stim.rate = 200
        ∧ res.stim.origin = st.time
        ∧ res.stim.start = 0
        ∧ res.stim.stop = recall_time
        ∧ res.stimNeuronCount = populations "STIM"
        ∧ res.connRule = "fixed_total_number"
        ∧ res.connN = connectionNumberStim
        ∧ res.recallFile = res.recallNeurons) := by
  have hval : ((populations "STIM" : ℚ)) * ((populations "R" : ℚ)) * sparsityStim
      = 20000 := by
    rw [show populations "STIM" = 1000 from rfl,
      show populations "R" = 400 from rfl]
    norm_num [sparsityStim]
  have hpy20 : pyInt (((populations "STIM" : ℚ)) * ((populations "R" : ℚ))
      * sparsityStim) = 20000 := by
    rw [hval]
    unfold pyInt
    rw [if_neg (by norm_num)]
    norm_num
  have hconn : connectionNumberStim = 20000 := by
    unfold connectionNumberStim
    rw [hpy20]
    rfl
  have hnlt : n - 1 < st.patterns.length := by omega
  have hsome : pyIndex st.patterns ((n : ℤ) - 1) =
      some (st.patterns.get ⟨n - 1, hnlt⟩) := by
    rw [pyIndex_of_nonneg _ _ (by omega),
      show ((n : ℤ) - 1).toNat = n - 1 from by omega,
      List.getElem?_eq_getElem hnlt, List.get_eq_getElem]
  obtain ⟨hnd, hplen800⟩ := hpat _ (List.get_mem st.patterns (n - 1) hnlt)
  have hRle : populations "R" ≤ (st.patterns.get ⟨n - 1, hnlt⟩).length := by
    rw [hplen800]
    decide
  refine ⟨rfl, rfl, hconn, rfl, st.patterns.get ⟨n - 1, hnlt⟩,
    { stim := { rate := 200, origin := st.time, start := 0, stop := recall_time },
      stimNeuronCount := populations "STIM",
      recallNeurons := sample (st.patterns.get ⟨n - 1, hnlt⟩) (populations "R") rands,
      connRule := "fixed_total_number",
      connN := connectionNumberStim,
      recallFile := sample (st.patterns.get ⟨n - 1, hnlt⟩) (populations "R") rands,
      state := { st with
        recalls := st.recalls ++
          [sample (st.patterns.get ⟨n - 1, hnlt⟩) (populations "R") rands],
        sdR := st.sdR ++
          [sample (st.patterns.get ⟨n - 1, hnlt⟩) (populations "R") rands] } },
    ?_, ?_, rfl, sample_length _ _ _ hRle, sample_nodup _ _ _ hnd,
    sample_subset _ _ _, rfl, rfl, rfl, rfl, rfl, rfl, rfl, rfl⟩
  · rw [List.getElem?_eq_getElem hnlt, List.get_eq_getElem]
  · unfold setup_pattern_for_recall
    rw [hsome]
    rfl

/-- Claim C10 witness: the hypotheses hold at the concrete two-pattern state
with `n = 1`, and the stimulus connection count is 20000. -/
theorem C10_setup_pattern_for_recall_witness :
    (1 ≤ 1 ∧ 1 ≤ exampleStatePat.pattern_count
     ∧ exampleStatePat.patterns.length = exampleStatePat.pattern_count
     ∧ (∀ p ∈ exampleStatePat.patterns, p.Nodup ∧ p.length = populations "P"))
    ∧ populations "R" = 400 ∧ populations "P" = 800
    ∧ connectionNumberStim = 20000 ∧ recall_time = 1000 := by
  have hn2 : 1 ≤ exampleStatePat.pattern_count := by
    simp only [exampleStatePat]
    omega
  have hplen : exampleStatePat.patterns.length = exampleStatePat.pattern_count := by
    simp only [exampleStatePat]
    rfl
  have hpat : ∀ p ∈ exampleStatePat.patterns, p.Nodup ∧ p.length = populations "P" := by
    intro p hp
    obtain ⟨h1, h2⟩ := exampleStatePat_patterns_fact p hp
    exact ⟨h1, by rw [h2]; rfl⟩
  obtain ⟨hR, hP, hc, hrt, _⟩ :=
    C10_setup_pattern_for_recall exampleStatePat 1 [] (le_refl 1) hn2 hplen hpat
  exact ⟨⟨le_refl 1, hn2, hplen, hpat⟩, hR, hP, hc, hrt⟩
